import Mathlib

/-!
Shallow embedding of `rusty.py` (khoing1111/youtube,
`src/001_rust_like_error_handling/rusty/rusty.py`), a Rust-style
`Result`/`Effect` helper library for Python, together with proofs of the
specification claims about it.

Modelling conventions:
* Python's dynamically typed (hashable) runtime values are the inductive
  `PyVal`; the frozen dataclasses `Ok`, `Err`, `Failure` and the marker
  class `Success` become constructors `okV`, `errV`, `failureV`, `successV`
  (structural equality of frozen dataclasses is `PyVal`'s derived equality).
  `anyV` is the `typing.Any` object when it is used as a runtime value
  (the wildcard handler key).
* A raised exception is the `.error` side of `Except PyExc`; the message
  strings of the exceptions are elided, only the semantically relevant
  payloads are kept (`ResultError.err`, `EffectError.failure`).
* A Python callable appearing as data (a recovery handler) is a Lean
  function `Unit → PyVal`; a wrapped function body is
  `List PyVal → Except PyExc PyVal` (positional `*args`, keyword
  arguments are irrelevant to every claim).
* Handler mappings are association lists with Python's
  value-equality lookup; `None` vs `{}` vs non-empty matters because the
  source guards on the truthiness of `err_handlers`.
-/

namespace Rusty

/-- Python runtime values (restricted to the hashable values the library
manipulates): ints, strings, `None`, the four tagged containers, and the
`typing.Any` object used as the wildcard handler key. -/
inductive PyVal where
  | intV (n : Int)
  | strV (s : String)
  | noneV
  | okV (content : PyVal)
  | errV (content : PyVal)
  | successV
  | failureV (content : PyVal)
  | anyV
deriving DecidableEq, Repr

/-- The exceptions of `rusty.py` plus the two built-in Python exceptions its
reflection code can raise.  `resultError` carries `self.err`, `effectError`
carries `self.failure`; message strings are elided. -/
inductive PyExc where
  | resultError (err : PyVal)
  | invalidResultError
  | effectError (failure : PyVal)
  | invalidEffectError
  | rustyError
  | typeError
  | indexError
deriving DecidableEq, Repr

/-- A handler mapping (`Mapping[R, Callable[[], T]]`): association list from
payload keys to zero-argument callables. -/
abbrev Handlers := List (PyVal × (Unit → PyVal))

/-- Python truthiness of the optional handler mapping: `None` and the empty
mapping are falsy. -/
def handlersTruthy : Option Handlers → Bool
  | none => false
  | some h => !h.isEmpty

/-- Dict lookup by value equality (`content in err_handlers` followed by
`err_handlers[content]`). -/
def lookupHandler (h : Option Handlers) (k : PyVal) : Option (Unit → PyVal) :=
  ((h.getD []).find? (fun p => p.1 == k)).map (fun p => p.2)

/-- `def ok(content)`: builds `Ok[type(content)](content)`, which is equal to
`Ok(content)` (the generic subscript does not change the instance's class or
fields). -/
def ok (content : PyVal) : PyVal := .okV content

/-- `def err(content)`. -/
def err (content : PyVal) : PyVal := .errV content

/-- `def failure(content)`. -/
def failure (content : PyVal) : PyVal := .failureV content

/-- `def unwrap(result, /, *, err_handlers=None)`: `case Err(content)` first
(keyed handler, then wildcard `Any` handler, each guarded by the truthiness of
`err_handlers`, else `ResultError(result)`), then `case Ok(content)` returns
the content, and any other value falls through to `InvalidResultError`. -/
def unwrap (result : PyVal) (errHandlers : Option Handlers) : Except PyExc PyVal :=
  match result with
  | .errV content =>
    if handlersTruthy errHandlers then
      match lookupHandler errHandlers content with
      | some f => .ok (f ())
      | none =>
        match lookupHandler errHandlers .anyV with
        | some f => .ok (f ())
        | none => .error (.resultError result)
    else .error (.resultError result)
  | .okV content => .ok content
  | _ => .error .invalidResultError

/-- `def success(effect, /, *, failure_handlers=None)`: `case Failure(content)`
dispatches exactly like `unwrap`'s `Err` case but raises
`EffectError(effect)`; `case Success()` returns (i.e. `None`); any other
value falls through to `InvalidEffectError`. -/
def success (effect : PyVal) (failureHandlers : Option Handlers) : Except PyExc PyVal :=
  match effect with
  | .failureV content =>
    if handlersTruthy failureHandlers then
      match lookupHandler failureHandlers content with
      | some f => .ok (f ())
      | none =>
        match lookupHandler failureHandlers .anyV with
        | some f => .ok (f ())
        | none => .error (.effectError effect)
    else .error (.effectError effect)
  | .successV => .ok .noneV
  | _ => .error .invalidEffectError

/-- `def unwrap_return(func)`: run the body; pass `Ok`/`Err` results through,
wrap any other return value with `ok(...)`, and turn a raised `ResultError`
into its carried `e.err`.  Other exceptions propagate. -/
def unwrap_return (func : List PyVal → Except PyExc PyVal)
    (args : List PyVal) : Except PyExc PyVal :=
  match func args with
  | .ok result =>
    match result with
    | .okV c => .ok (.okV c)
    | .errV c => .ok (.errV c)
    | r => .ok (ok r)
  | .error (.resultError e) => .ok e
  | .error e => .error e

/-- `def failure_return(func)`: return the body's value unchanged, and turn a
raised `EffectError` into its carried `e.failure`.  Other exceptions
propagate. -/
def failure_return (func : List PyVal → Except PyExc PyVal)
    (args : List PyVal) : Except PyExc PyVal :=
  match func args with
  | .ok r => .ok r
  | .error (.effectError f) => .ok f
  | .error e => .error e

/-!  ## Runtime type reflection

Python classes, type-annotation objects, and the fragment of
`typing.get_origin` / `typing.get_args` / `isinstance` that the strict
decorators exercise (verified against CPython 3.11 behaviour).
-/

/-- The runtime classes relevant to the library (plain, unparameterized
class objects). -/
inductive PyClass where
  | intC | strC | noneC | listC | dictC
  | okC | errC | successC | failureC
deriving DecidableEq, Repr

/-- Type-annotation objects as CPython's `typing` machinery produces them:
plain classes, `typing.Any`, type variables, parameterized generic aliases
(`Ok[int]`, `dict[str, int]`), flattened unions (`X | Y`, `Union[X, Y]`;
CPython flattens nested unions on construction), and the `types.UnionType`
class itself (which `get_origin` returns for a union). -/
inductive PyAnn where
  | clsA (c : PyClass)
  | anyA
  | tyvarA (name : String)
  | genA (origin : PyClass) (args : List PyAnn)
  | unionA (args : List PyAnn)
  | unionTypeClsA

/-- `typing.get_origin`: the origin class of a parameterized generic, the
union marker for a union (both `types.UnionType` and `typing.Union` are
handled alike, exactly as `_is_union_type` treats them), `None` for plain
classes, `Any`, and type variables. -/
def get_origin : PyAnn → Option PyAnn
  | .genA o _ => some (.clsA o)
  | .unionA _ => some .unionTypeClsA
  | _ => none

/-- `typing.get_args`: the parameters of a generic alias or the arms of a
union, else the empty tuple. -/
def get_args : PyAnn → List PyAnn
  | .genA _ as => as
  | .unionA as => as
  | _ => []

/-- `def _is_union_type(typehint)`: `get_origin(typehint) in (UnionType,
Union)` (both union markers are the single `unionTypeClsA` here). -/
def is_union_type (t : PyAnn) : Bool :=
  match get_origin t with
  | some .unionTypeClsA => true
  | _ => false

/-- `def _extract_types(type_args)`: the arms of a union, else the singleton
tuple. -/
def extract_types (t : PyAnn) : List PyAnn :=
  if is_union_type t then get_args t else [t]

/-- The idiom `get_origin(t) or t` used throughout the decorators. -/
def originOrSelf (t : PyAnn) : PyAnn := (get_origin t).getD t

/-- The identity test `... is Ok` on the plain class object `Ok`. -/
def is_Ok_class : PyAnn → Bool
  | .clsA .okC => true
  | _ => false

/-- The identity test `... is Err` on the plain class object `Err`. -/
def is_Err_class : PyAnn → Bool
  | .clsA .errC => true
  | _ => false

/-- Whether runtime value `v` is an instance of the plain class `c`
(`isinstance` with a genuine class as second argument always succeeds and
returns a boolean).  The `typing.Any` object is an instance of none of the
listed classes. -/
def instanceOfClass (v : PyVal) (c : PyClass) : Bool :=
  match v, c with
  | .intV _, .intC => true
  | .strV _, .strC => true
  | .noneV, .noneC => true
  | .okV _, .okC => true
  | .errV _, .errC => true
  | .successV, .successC => true
  | .failureV _, .failureC => true
  | _, _ => false

/-- `isinstance(v, t)` for an annotation object `t` in the second-argument
position: genuine classes test normally; a union of classes tests each arm
(PEP 604 unions are valid); `typing.Any`, type variables, and parameterized
generics raise `TypeError` (CPython 3.11). -/
def isinstancePy (v : PyVal) (t : PyAnn) : Except PyExc Bool :=
  match t with
  | .clsA c => .ok (instanceOfClass v c)
  | .unionTypeClsA => .ok false
  | .unionA args =>
    if args.all (fun a => match a with | .clsA _ => true | _ => false) then
      .ok (args.any (fun a => match a with | .clsA c => instanceOfClass v c | _ => false))
    else .error .typeError
  | _ => .error .typeError

/-!  ## `strict_unwrap_return` -/

/-- The decoration-time phase of `def strict_unwrap_return(func)`: read the
return annotation (`None` if absent), require a two-armed union whose first
arm's `get_origin(...) or ...` is the class `Ok` and whose second arm's is
`Err` (raising `RustyError` otherwise), then take `get_args(arm)[0]` of each
arm (an `IndexError` if the arm is the bare class) and build
`ok_types = [get_origin(t) for t in _extract_types(ok_type_args)]` and
likewise `err_types`.  Note the comprehension keeps bare `get_origin(t)`,
which is `None` for a plain class such as `int` and for `Any`. -/
def strict_unwrap_return_decorate (returnAnn : Option PyAnn) :
    Except PyExc (List (Option PyAnn) × List (Option PyAnn)) :=
  match returnAnn with
  | none => .error .rustyError
  | some return_type =>
    if !is_union_type return_type || (get_args return_type).length ≠ 2 then
      .error .rustyError
    else
      match get_args return_type with
      | [ok_type, err_type] =>
        if !is_Ok_class (originOrSelf ok_type) then .error .rustyError
        else if !is_Err_class (originOrSelf err_type) then .error .rustyError
        else
          match get_args ok_type, get_args err_type with
          | ok_type_args :: _, err_type_args :: _ =>
            .ok ((extract_types ok_type_args).map get_origin,
                 (extract_types err_type_args).map get_origin)
          | _, _ => .error .indexError
      | _ => .error .rustyError

/-- The loop `for valid_type in ok_types: if isinstance(content, valid_type)
or valid_type is Any: ...` over a list whose elements may be `None`
(`isinstance(content, None)` raises `TypeError`; the left operand of `or` is
evaluated first, so a raising `isinstance` pre-empts the `is Any` test).
Returns whether some element accepted the content, or the raised
exception. -/
def check_types_loop (content : PyVal) : List (Option PyAnn) → Except PyExc Bool
  | [] => .ok false
  | none :: _ => .error .typeError
  | some t :: rest =>
    match isinstancePy content t with
    | .error e => .error e
    | .ok true => .ok true
    | .ok false =>
      match t with
      | .anyA => .ok true
      | _ => check_types_loop content rest

/-- The call-time wrapper of `strict_unwrap_return`: on a normal `Ok(content)`
or `Err(content)` return the content is checked against `ok_types` (the
source consults `ok_types` for both arms; the captured `err_types` is never
consulted, hence the underscored binder), with no match raising
`RustyError`; a non-tagged return raises
`RustyError`; a raised `ResultError` carrying an `Err(content)` has the
content checked against `ok_types` again, returning `e.err` on a match and
raising `RustyError` otherwise. -/
def strict_unwrap_return_wrapper (ok_types _err_types : List (Option PyAnn))
    (func : List PyVal → Except PyExc PyVal) (args : List PyVal) :
    Except PyExc PyVal :=
  match func args with
  | .ok result =>
    match result with
    | .okV content =>
      (match check_types_loop content ok_types with
       | .error e => .error e
       | .ok true => .ok result
       | .ok false => .error .rustyError)
    | .errV content =>
      (match check_types_loop content ok_types with
       | .error e => .error e
       | .ok true => .ok result
       | .ok false => .error .rustyError)
    | _ => .error .rustyError
  | .error (.resultError e) =>
    (match e with
     | .errV content =>
       (match check_types_loop content ok_types with
        | .error ex => .error ex
        | .ok true => .ok e
        | .ok false => .error .rustyError)
     | _ => .error .rustyError)
  | .error e => .error e

/-- `def strict_unwrap_return(func)` end to end: decoration either raises or
yields the wrapped callable.  (`err_types` is captured by the closure but
never consulted by it.) -/
def strict_unwrap_return (returnAnn : Option PyAnn)
    (func : List PyVal → Except PyExc PyVal) :
    Except PyExc (List PyVal → Except PyExc PyVal) :=
  match strict_unwrap_return_decorate returnAnn with
  | .error e => .error e
  | .ok (ok_types, err_types) =>
    .ok (strict_unwrap_return_wrapper ok_types err_types func)

/-!  ## `strict_failure_return` -/

/-- The membership test `type_origin in (Failure, Effect)` of
`strict_failure_return`.  `Failure` is the plain class; `Effect` is the union
alias object `Success | Failure[R]` and Python union equality is
arm-set-based, hence the two orderings.  (Because `get_origin(...) or ...`
never produces a union object, the `Effect` disjunct can never fire; it is
kept for fidelity.) -/
def is_Failure_or_Effect (t : PyAnn) : Bool :=
  match t with
  | .clsA .failureC => true
  | .unionA [.clsA .successC, .genA .failureC [.tyvarA n]] => n = "R"
  | .unionA [.genA .failureC [.tyvarA n], .clsA .successC] => n = "R"
  | _ => false

/-- The collection loop of `strict_failure_return`:
`for t_type in return_type_args: if (get_origin(t_type) or t_type) in
(Failure, Effect): failure_types += _extract_types(get_args(t_type)[0])`.
`get_args(t_type)[0]` on a bare `Failure` arm raises `IndexError`.
(The source finally applies `list(set(...))`, which only deduplicates and
reorders; membership is unchanged and no claim depends on order, so the
collected list is kept as built.) -/
def collectFailureTypes : List PyAnn → Except PyExc (List PyAnn)
  | [] => .ok []
  | t :: rest =>
    if is_Failure_or_Effect (originOrSelf t) then
      match get_args t with
      | [] => .error .indexError
      | a :: _ =>
        match collectFailureTypes rest with
        | .error e => .error e
        | .ok r => .ok (extract_types a ++ r)
    else collectFailureTypes rest

/-- The decoration-time phase of `def strict_failure_return(func)`: a missing
return annotation raises `RustyError`; otherwise the failure-payload types
are collected from the annotation's (extracted) arms. -/
def strict_failure_return_decorate (returnAnn : Option PyAnn) :
    Except PyExc (List PyAnn) :=
  match returnAnn with
  | none => .error .rustyError
  | some return_type => collectFailureTypes (extract_types return_type)

/-- The loop `for valid_type in failure_types: if isinstance(content,
valid_type) or valid_type is Any: ...` — here the elements are the raw
annotation objects (no `get_origin` is applied), so `isinstance` can raise
`TypeError` on `Any`, type variables, or parameterized generics. -/
def check_types_loop_raw (content : PyVal) : List PyAnn → Except PyExc Bool
  | [] => .ok false
  | t :: rest =>
    match isinstancePy content t with
    | .error e => .error e
    | .ok true => .ok true
    | .ok false =>
      match t with
      | .anyA => .ok true
      | _ => check_types_loop_raw content rest

/-- The call-time wrapper of `strict_failure_return`: a normal
`Failure(content)` return has its content checked against `failure_types`
(no match raises `RustyError`); ANY other normal return value is passed
through unchanged; a raised `EffectError` carrying a `Failure(content)` has
the content checked the same way, returning `e.failure` on a match. -/
def strict_failure_return_wrapper (failure_types : List PyAnn)
    (func : List PyVal → Except PyExc PyVal) (args : List PyVal) :
    Except PyExc PyVal :=
  match func args with
  | .ok result =>
    match result with
    | .failureV content =>
      (match check_types_loop_raw content failure_types with
       | .error e => .error e
       | .ok true => .ok result
       | .ok false => .error .rustyError)
    | r => .ok r
  | .error (.effectError e) =>
    (match e with
     | .failureV content =>
       (match check_types_loop_raw content failure_types with
        | .error ex => .error ex
        | .ok true => .ok e
        | .ok false => .error .rustyError)
     | _ => .error .rustyError)
  | .error e => .error e

/-- `def strict_failure_return(func)` end to end. -/
def strict_failure_return (returnAnn : Option PyAnn)
    (func : List PyVal → Except PyExc PyVal) :
    Except PyExc (List PyVal → Except PyExc PyVal) :=
  match strict_failure_return_decorate returnAnn with
  | .error e => .error e
  | .ok failure_types => .ok (strict_failure_return_wrapper failure_types func)

/-!  ## Derived inspection helpers used to state the claims -/

/-- The `.content` attribute of the three payload-carrying dataclasses
(`none` models the `AttributeError` on any other value). -/
def content : PyVal → Option PyVal
  | .okV c => some c
  | .errV c => some c
  | .failureV c => some c
  | _ => none

/-- Whether a runtime value is an inhabitant of `Result`, i.e. an `Ok` or
`Err` instance (the values matched by `unwrap`'s two `case` arms). -/
def isResultVal : PyVal → Bool
  | .okV _ => true
  | .errV _ => true
  | _ => false

/-- Whether a runtime value is an inhabitant of `Effect`, i.e. a `Success`
or `Failure` instance (the values matched by `success`'s two `case` arms). -/
def isEffectVal : PyVal → Bool
  | .successV => true
  | .failureV _ => true
  | _ => false

/-- The permitted failure-payload type set as the spec words it (modelled
from the spec for comparison with the code's collection loop): scan the
annotation's arms, and for each `Failure`/`Effect` arm collect the declared
payload type(s); arms of any other shape contribute nothing. -/
def spec_failure_types : List PyAnn → List PyAnn
  | [] => []
  | t :: rest =>
    if is_Failure_or_Effect (originOrSelf t) then
      extract_types ((get_args t).headD .anyA) ++ spec_failure_types rest
    else spec_failure_types rest

/-!  ## Helper lemmas -/

theorem handlersTruthy_of_lookup (hs : Handlers) (k : PyVal) (f : Unit → PyVal)
    (h : lookupHandler (some hs) k = some f) : handlersTruthy (some hs) = true := by
  cases hs with
  | nil => simp [lookupHandler] at h
  | cons a t => rfl

theorem collectFailureTypes_of_no_arm (ts : List PyAnn)
    (h : ∀ t ∈ ts, is_Failure_or_Effect (originOrSelf t) = false) :
    collectFailureTypes ts = .ok [] := by
  induction ts with
  | nil => rfl
  | cons t rest ih =>
    have ht := h t (List.mem_cons_self t rest)
    simp only [collectFailureTypes, ht, Bool.false_eq_true, if_false]
    exact ih (fun u hu => h u (List.mem_cons_of_mem t hu))

theorem collectFailureTypes_eq_spec (ts : List PyAnn) (res : List PyAnn)
    (h : collectFailureTypes ts = .ok res) : res = spec_failure_types ts := by
  induction ts generalizing res with
  | nil =>
    simp only [collectFailureTypes] at h
    cases h
    rfl
  | cons t rest ih =>
    by_cases hc : is_Failure_or_Effect (originOrSelf t) = true
    · simp only [collectFailureTypes, hc, if_true] at h
      cases hg : get_args t with
      | nil => rw [hg] at h; cases h
      | cons a rest2 =>
        rw [hg] at h
        cases hr : collectFailureTypes rest with
        | error e => rw [hr] at h; cases h
        | ok r =>
          rw [hr] at h
          cases h
          simp [spec_failure_types, hc, hg, ih r hr]
    · simp only [collectFailureTypes, hc, if_false] at h
      simp [spec_failure_types, hc, ih res h]

/-!  ## Claim theorems -/

/-- C1: for every payload `v`, `unwrap(err(v), err_handlers=handlers)`
returns `f()` when `handlers` maps the key `v` to `f`; returns the wildcard
(`Any`-keyed) handler's result when `v` is not a key but the wildcard is;
and raises `ResultError` carrying the original `Err` value when neither is
present, including when the handler mapping is absent or empty. -/
theorem C1_unwrap_err_handler_dispatch (v : PyVal) (hs : Handlers)
    (f g : Unit → PyVal) :
    (lookupHandler (some hs) v = some f → unwrap (err v) (some hs) = .ok (f ()))
  ∧ (lookupHandler (some hs) v = none → lookupHandler (some hs) .anyV = some g →
      unwrap (err v) (some hs) = .ok (g ()))
  ∧ unwrap (err v) none = .error (.resultError (err v))
  ∧ unwrap (err v) (some []) = .error (.resultError (err v))
  ∧ (lookupHandler (some hs) v = none → lookupHandler (some hs) .anyV = none →
      unwrap (err v) (some hs) = .error (.resultError (err v))) := by
  refine ⟨?_, ?_, rfl, rfl, ?_⟩
  · intro h
    simp [unwrap, err, handlersTruthy_of_lookup hs v f h, h]
  · intro h1 h2
    simp [unwrap, err, handlersTruthy_of_lookup hs _ g h2, h1, h2]
  · intro h1 h2
    cases htr : handlersTruthy (some hs) <;> simp [unwrap, err, htr, h1, h2]

theorem C1_unwrap_err_handler_dispatch_witness :
    unwrap (err (.intV 1)) (some [(.intV 1, fun _ => .intV 7)]) = .ok (.intV 7)
  ∧ unwrap (err (.intV 2))
      (some [(.intV 1, fun _ => .intV 7), (.anyV, fun _ => .intV 9)]) = .ok (.intV 9)
  ∧ unwrap (err (.intV 3)) (some [(.intV 1, fun _ => .intV 7)]) =
      .error (.resultError (err (.intV 3))) :=
  ⟨(C1_unwrap_err_handler_dispatch (.intV 1) [(.intV 1, fun _ => .intV 7)]
      (fun _ => .intV 7) (fun _ => .intV 7)).1 rfl,
   (C1_unwrap_err_handler_dispatch (.intV 2)
      [(.intV 1, fun _ => .intV 7), (.anyV, fun _ => .intV 9)]
      (fun _ => .intV 7) (fun _ => .intV 9)).2.1 rfl rfl,
   (C1_unwrap_err_handler_dispatch (.intV 3) [(.intV 1, fun _ => .intV 7)]
      (fun _ => .intV 7) (fun _ => .intV 7)).2.2.2.2 rfl rfl⟩

/-- C2: for every payload `v`, `unwrap(ok(v))` returns `v` unchanged (for any
handler mapping, so in particular no handler is consulted and no error is
raised). -/
theorem C2_unwrap_ok_returns_content (v : PyVal) (errHandlers : Option Handlers) :
    unwrap (ok v) errHandlers = .ok v := rfl

/-- C3: a function wrapped by `unwrap_return` passes `Ok` and `Err` return
values through unchanged, wraps any other (bare) return value as
`Ok(value)`, and converts a raised `ResultError` into the `Err` value the
exception carries instead of propagating it. -/
theorem C3_unwrap_return_boundary (func : List PyVal → Except PyExc PyVal)
    (args : List PyVal) (r e : PyVal) :
    (func args = .ok (.okV r) → unwrap_return func args = .ok (.okV r))
  ∧ (func args = .ok (.errV r) → unwrap_return func args = .ok (.errV r))
  ∧ (func args = .ok r → isResultVal r = false → unwrap_return func args = .ok (ok r))
  ∧ (func args = .error (.resultError e) → unwrap_return func args = .ok e) := by
  refine ⟨?_, ?_, ?_, ?_⟩
  · intro h; simp [unwrap_return, h]
  · intro h; simp [unwrap_return, h]
  · intro h hbare
    cases r <;> simp_all [unwrap_return, isResultVal, ok]
  · intro h; simp [unwrap_return, h]

theorem C3_unwrap_return_boundary_witness :
    unwrap_return (fun _ => .ok (.okV (.intV 1))) [] = .ok (.okV (.intV 1))
  ∧ unwrap_return (fun _ => .ok (.errV (.strV "e"))) [] = .ok (.errV (.strV "e"))
  ∧ unwrap_return (fun _ => .ok (.intV 2)) [] = .ok (ok (.intV 2))
  ∧ unwrap_return (fun _ => .error (.resultError (.errV (.strV "x")))) [] =
      .ok (.errV (.strV "x")) :=
  ⟨(C3_unwrap_return_boundary (fun _ => .ok (.okV (.intV 1))) []
      (.intV 1) .noneV).1 rfl,
   (C3_unwrap_return_boundary (fun _ => .ok (.errV (.strV "e"))) []
      (.strV "e") .noneV).2.1 rfl,
   (C3_unwrap_return_boundary (fun _ => .ok (.intV 2)) []
      (.intV 2) .noneV).2.2.1 rfl rfl,
   (C3_unwrap_return_boundary (fun _ => .error (.resultError (.errV (.strV "x")))) []
      .noneV (.errV (.strV "x"))).2.2.2 rfl⟩

/-- C7: `success(Success())` always completes normally returning `None`, and
for every payload `v`, `success(failure(v))` raises `EffectError` carrying
`failure(v)` when the handler mapping is absent or empty (or has no matching
key), and returns the keyed (or wildcard) handler's result otherwise. -/
theorem C7_success_dispatch (v : PyVal) (hs : Handlers) (f g : Unit → PyVal)
    (fh : Option Handlers) :
    success .successV fh = .ok .noneV
  ∧ success (failure v) none = .error (.effectError (failure v))
  ∧ success (failure v) (some []) = .error (.effectError (failure v))
  ∧ (lookupHandler (some hs) v = some f → success (failure v) (some hs) = .ok (f ()))
  ∧ (lookupHandler (some hs) v = none → lookupHandler (some hs) .anyV = some g →
      success (failure v) (some hs) = .ok (g ())) := by
  refine ⟨rfl, rfl, rfl, ?_, ?_⟩
  · intro h
    simp [success, failure, handlersTruthy_of_lookup hs v f h, h]
  · intro h1 h2
    simp [success, failure, handlersTruthy_of_lookup hs _ g h2, h1, h2]

theorem C7_success_dispatch_witness :
    success .successV none = .ok .noneV
  ∧ success (failure (.strV "f")) none = .error (.effectError (failure (.strV "f")))
  ∧ success (failure (.strV "f")) (some [(.strV "f", fun _ => .intV 4)]) = .ok (.intV 4)
  ∧ success (failure (.strV "g"))
      (some [(.strV "f", fun _ => .intV 4), (.anyV, fun _ => .intV 8)]) = .ok (.intV 8) :=
  ⟨(C7_success_dispatch (.strV "f") [] (fun _ => .noneV) (fun _ => .noneV) none).1,
   (C7_success_dispatch (.strV "f") [] (fun _ => .noneV) (fun _ => .noneV) none).2.1,
   (C7_success_dispatch (.strV "f") [(.strV "f", fun _ => .intV 4)]
      (fun _ => .intV 4) (fun _ => .intV 4) none).2.2.2.1 rfl,
   (C7_success_dispatch (.strV "g") [(.strV "f", fun _ => .intV 4), (.anyV, fun _ => .intV 8)]
      (fun _ => .intV 4) (fun _ => .intV 8) none).2.2.2.2 rfl rfl⟩

/-- C8: `unwrap` raises `InvalidResultError` (not `ResultError`) on every
value that is neither an `Ok` nor an `Err` instance, and symmetrically
`success` raises `InvalidEffectError` on every value that is neither
`Success` nor `Failure`. -/
theorem C8_invalid_inputs (v : PyVal) (hs : Option Handlers) :
    (isResultVal v = false → unwrap v hs = .error .invalidResultError)
  ∧ (isEffectVal v = false → success v hs = .error .invalidEffectError) := by
  constructor
  · intro h; cases v <;> simp_all [isResultVal] <;> rfl
  · intro h; cases v <;> simp_all [isEffectVal] <;> rfl

theorem C8_invalid_inputs_witness :
    unwrap (.intV 0) none = .error .invalidResultError
  ∧ success (.strV "x") none = .error .invalidEffectError :=
  ⟨(C8_invalid_inputs (.intV 0) none).1 rfl,
   (C8_invalid_inputs (.strV "x") none).2 rfl⟩

/-- C9: the `Ok`, `Err` and `Failure` containers are structural value types:
construction stores the payload verbatim (`.content` gives it back), and two
instances of the same container type are equal exactly when their payloads
are equal.  (The model's values are immutable, matching `frozen=True`, which
generates no mutation methods.) -/
theorem C9_containers_structural (a b : PyVal) :
    content (ok a) = some a ∧ content (err a) = some a ∧ content (failure a) = some a
  ∧ (ok a = ok b ↔ a = b) ∧ (err a = err b ↔ a = b)
  ∧ (failure a = failure b ↔ a = b) := by
  simp [ok, err, failure, content]

/-- C10: a function wrapped by `failure_return` has every normally returned
value — tagged or bare, `None` included — passed through completely
unchanged; only a raised `EffectError` is intercepted and converted into its
carried `Failure`, and any other exception propagates. -/
theorem C10_failure_return_passthrough (func : List PyVal → Except PyExc PyVal)
    (args : List PyVal) (r f : PyVal) (ex : PyExc) :
    (func args = .ok r → failure_return func args = .ok r)
  ∧ (func args = .error (.effectError f) → failure_return func args = .ok f)
  ∧ (func args = .error ex → (∀ g, ex ≠ .effectError g) →
      failure_return func args = .error ex) := by
  refine ⟨?_, ?_, ?_⟩
  · intro h; simp [failure_return, h]
  · intro h; simp [failure_return, h]
  · intro h hne
    cases ex with
    | effectError g => exact absurd rfl (hne g)
    | _ => simp [failure_return, h]

theorem C10_failure_return_passthrough_witness :
    failure_return (fun _ => .ok .noneV) [] = .ok .noneV
  ∧ failure_return (fun _ => .ok (.intV 3)) [] = .ok (.intV 3)
  ∧ failure_return (fun _ => .ok (.successV)) [] = .ok .successV
  ∧ failure_return (fun _ => .error (.effectError (.failureV (.intV 1)))) [] =
      .ok (.failureV (.intV 1))
  ∧ failure_return (fun _ => .error (.resultError (.errV .noneV))) [] =
      .error (.resultError (.errV .noneV)) :=
  ⟨(C10_failure_return_passthrough (fun _ => .ok .noneV) [] .noneV .noneV
      .rustyError).1 rfl,
   (C10_failure_return_passthrough (fun _ => .ok (.intV 3)) [] (.intV 3) .noneV
      .rustyError).1 rfl,
   (C10_failure_return_passthrough (fun _ => .ok (.successV)) [] .successV .noneV
      .rustyError).1 rfl,
   (C10_failure_return_passthrough (fun _ => .error (.effectError (.failureV (.intV 1))))
      [] .noneV (.failureV (.intV 1)) .rustyError).2.1 rfl,
   (C10_failure_return_passthrough (fun _ => .error (.resultError (.errV .noneV)))
      [] .noneV .noneV (.resultError (.errV .noneV))).2.2 rfl
      (fun g h => by cases h)⟩

/-- C5: applying `strict_unwrap_return` to a function whose declared return
annotation is missing, is not a union, does not have exactly two arms, or
whose first arm's origin (`get_origin(...) or ...`) is not the class `Ok`,
or whose second arm's origin is not the class `Err`, raises `RustyError` at
decoration time; a conforming two-armed `Ok[...] | Err[...]` annotation
decorates without error (the wrapped function is never consulted during
decoration). -/
theorem C5_strict_unwrap_decoration_check :
    strict_unwrap_return_decorate none = .error .rustyError
  ∧ (∀ t : PyAnn, is_union_type t = false →
      strict_unwrap_return_decorate (some t) = .error .rustyError)
  ∧ (∀ args : List PyAnn, args.length ≠ 2 →
      strict_unwrap_return_decorate (some (.unionA args)) = .error .rustyError)
  ∧ (∀ t1 t2 : PyAnn, is_Ok_class (originOrSelf t1) = false →
      strict_unwrap_return_decorate (some (.unionA [t1, t2])) = .error .rustyError)
  ∧ (∀ t1 t2 : PyAnn, is_Ok_class (originOrSelf t1) = true →
      is_Err_class (originOrSelf t2) = false →
      strict_unwrap_return_decorate (some (.unionA [t1, t2])) = .error .rustyError)
  ∧ (∀ (a b : PyAnn) (as bs : List PyAnn),
      strict_unwrap_return_decorate
          (some (.unionA [.genA .okC (a :: as), .genA .errC (b :: bs)])) =
        .ok ((extract_types a).map get_origin, (extract_types b).map get_origin)) := by
  refine ⟨rfl, ?_, ?_, ?_, ?_, ?_⟩
  · intro t h
    simp [strict_unwrap_return_decorate, h]
  · intro args h
    simp [strict_unwrap_return_decorate, is_union_type, get_origin, get_args, h]
  · intro t1 t2 h
    simp [strict_unwrap_return_decorate, is_union_type, get_origin, get_args, h]
  · intro t1 t2 h1 h2
    simp [strict_unwrap_return_decorate, is_union_type, get_origin, get_args, h1, h2]
  · intro a b as bs
    rfl

theorem C5_strict_unwrap_decoration_check_witness :
    strict_unwrap_return_decorate (some (.clsA .intC)) = .error .rustyError
  ∧ strict_unwrap_return_decorate (some (.unionA [.clsA .intC])) = .error .rustyError
  ∧ strict_unwrap_return_decorate
      (some (.unionA [.genA .errC [.clsA .intC], .genA .okC [.clsA .strC]])) =
      .error .rustyError
  ∧ strict_unwrap_return_decorate
      (some (.unionA [.genA .okC [.clsA .intC], .clsA .strC])) = .error .rustyError
  ∧ strict_unwrap_return_decorate
      (some (.unionA [.genA .okC [.clsA .intC], .genA .errC [.clsA .strC]])) =
      .ok ([none], [none]) :=
  ⟨C5_strict_unwrap_decoration_check.2.1 (.clsA .intC) rfl,
   C5_strict_unwrap_decoration_check.2.2.1 [.clsA .intC] (by decide),
   C5_strict_unwrap_decoration_check.2.2.2.1
     (.genA .errC [.clsA .intC]) (.genA .okC [.clsA .strC]) rfl,
   C5_strict_unwrap_decoration_check.2.2.2.2.1
     (.genA .okC [.clsA .intC]) (.clsA .strC) rfl rfl,
   C5_strict_unwrap_decoration_check.2.2.2.2.2
     (.clsA .intC) (.clsA .strC) [] []⟩

/-- C4 evaluated at its failing inputs: with declared annotation
`Ok[int] | Err[str]` the decorator stores `[None]` for both type lists
(`get_origin(int)` is `None`), so a body returning the well-typed `Ok(5)`
makes the wrapper raise `TypeError` from `isinstance(5, None)` instead of
returning the tagged value unchanged; and with annotation
`Ok[Ok[int]] | Err[Err[str]]` a body returning `Err(Err("boom"))`, whose
payload is an instance of the declared `Err` payload class, makes the
wrapper raise `RustyError` because the payload is checked against the `Ok`
type list rather than the `Err` one. -/
theorem C4_strict_unwrap_type_check_bug_eval :
    strict_unwrap_return_decorate
        (some (.unionA [.genA .okC [.clsA .intC], .genA .errC [.clsA .strC]])) =
      .ok ([none], [none])
  ∧ strict_unwrap_return_wrapper [none] [none] (fun _ => .ok (.okV (.intV 5))) [] =
      .error .typeError
  ∧ strict_unwrap_return_decorate
        (some (.unionA [.genA .okC [.genA .okC [.clsA .intC]],
                        .genA .errC [.genA .errC [.clsA .strC]]])) =
      .ok ([some (.clsA .okC)], [some (.clsA .errC)])
  ∧ strict_unwrap_return_wrapper [some (.clsA .okC)] [some (.clsA .errC)]
        (fun _ => .ok (.errV (.errV (.strV "boom")))) [] = .error .rustyError
  ∧ instanceOfClass (.errV (.strV "boom")) .errC = true :=
  ⟨rfl, rfl, rfl, rfl, rfl⟩

/-- C6: `strict_failure_return` collects its permitted failure-payload type
set from exactly the `Failure`/`Effect` arms of the declared return
annotation (the collected list equals the spec-side scan); an annotation
with no such arm yields the empty set; and with the empty set every
non-`Failure` return value of the wrapped body is passed through unchanged
without any type check. -/
theorem C6_strict_failure_types_collection :
    (∀ rt : PyAnn,
      (∀ t ∈ extract_types rt, is_Failure_or_Effect (originOrSelf t) = false) →
      strict_failure_return_decorate (some rt) = .ok [])
  ∧ (∀ (rt : PyAnn) (tys : List PyAnn),
      strict_failure_return_decorate (some rt) = .ok tys →
      tys = spec_failure_types (extract_types rt))
  ∧ (∀ (func : List PyVal → Except PyExc PyVal) (args : List PyVal) (r : PyVal),
      func args = .ok r → (∀ c, r ≠ .failureV c) →
      strict_failure_return_wrapper [] func args = .ok r) := by
  refine ⟨?_, ?_, ?_⟩
  · intro rt h
    exact collectFailureTypes_of_no_arm (extract_types rt) h
  · intro rt tys h
    exact collectFailureTypes_eq_spec (extract_types rt) tys h
  · intro func args r h hnf
    cases r with
    | failureV c => exact absurd rfl (hnf c)
    | _ => simp [strict_failure_return_wrapper, h]

theorem C6_strict_failure_types_collection_witness :
    strict_failure_return_decorate (some (.unionA [.clsA .intC, .clsA .strC])) = .ok []
  ∧ ([.clsA .strC] : List PyAnn) =
      spec_failure_types
        (extract_types (.unionA [.clsA .successC, .genA .failureC [.clsA .strC]]))
  ∧ strict_failure_return_wrapper [] (fun _ => .ok (.intV 3)) [] = .ok (.intV 3) :=
  ⟨C6_strict_failure_types_collection.1 (.unionA [.clsA .intC, .clsA .strC])
     (by decide),
   C6_strict_failure_types_collection.2.1
     (.unionA [.clsA .successC, .genA .failureC [.clsA .strC]]) [.clsA .strC] rfl,
   C6_strict_failure_types_collection.2.2 (fun _ => .ok (.intV 3)) [] (.intV 3) rfl
     (fun c h => by cases h)⟩

end Rusty
